import Mathlib

/-!
Verification of the MySQL schema-synchronization service
(`backend/src/services/mysql.service.ts`).

The service is shallowly embedded: strings are Lean `String`s handled at
the character-list level (the service only manipulates ASCII data in the
fragments verified here, so `Char`-level modelling of the JavaScript
string operations is faithful), and the database driver is an explicit
environment assigning to every issued query either a successful result or
a driver error message.  Every query handed to `connection.query` is also
recorded in an execution trace so that ordering and attempted-DDL
properties can be stated.
-/

namespace MySqlService

/-! ## JavaScript string primitives used by the service -/

/-- The character class `[a-zA-Z0-9_]` of the sanitizing regular
expression `/[^a-zA-Z0-9_]/g`. -/
def isWordChar (c : Char) : Bool :=
  decide (('a' ≤ c ∧ c ≤ 'z') ∨ ('A' ≤ c ∧ c ≤ 'Z') ∨ ('0' ≤ c ∧ c ≤ '9') ∨ c = '_')

/-- `s.replace(/[^a-zA-Z0-9_]/g, '_')`: every character outside
`[a-zA-Z0-9_]` is replaced by one underscore. -/
def sanitize (s : String) : String :=
  ⟨s.data.map (fun c => if isWordChar c then c else '_')⟩

/-- `s.toUpperCase()` restricted to the ASCII range, which is the only
range the service compares against. -/
def jsToUpper (s : String) : String :=
  ⟨s.data.map Char.toUpper⟩

/-- The whitespace stripped by `String.prototype.trim`, restricted to
the ASCII range: space, tab, line feed, vertical tab, form feed and
carriage return. -/
def isJsWhitespace (c : Char) : Bool :=
  c == ' ' || c == '\t' || c == '\n' || c == '\x0b' || c == '\x0c' || c == '\r'

/-- `s.trim()`. -/
def jsTrim (s : String) : String :=
  ⟨((s.data.dropWhile isJsWhitespace).reverse.dropWhile isJsWhitespace).reverse⟩

/-- `s.includes(pat)`. -/
def jsIncludes (s pat : String) : Bool :=
  decide (pat.data <:+: s.data)

/-- `s.replace(/'/g, "''")`: every single quote is doubled. -/
def escapeQuotes (s : String) : String :=
  ⟨(s.data.map (fun c => if c == '\'' then ['\'', '\''] else [c])).flatten⟩

/-! ## Data model (the TypeScript interfaces) -/

/-- `interface Column`.  The optional boolean flags `isUnique` and
`isAutoIncrement` are modelled as `Bool` (JavaScript treats the absent
value `undefined` and `false` identically in every use the service makes
of them); the optional strings stay `Option String` because the service
distinguishes presence (truthiness) from content. -/
structure Column where
  id : String
  name : String
  type : String
  isPrimaryKey : Bool
  isNullable : Bool
  isUnique : Bool := false
  isAutoIncrement : Bool := false
  defaultValue : Option String := none
  checkConstraint : Option String := none
deriving Repr, DecidableEq

/-- `interface Table`.  The `position` field is pure canvas metadata,
never read by the service, and is omitted. -/
structure Table where
  id : String
  name : String
  columns : List Column
deriving Repr, DecidableEq

/-- The `onDelete`/`onUpdate` union type
`'CASCADE' | 'SET NULL' | 'RESTRICT' | 'NO ACTION'`. -/
inductive FKAction where
  | cascade
  | setNull
  | restrict
  | noAction
deriving Repr, DecidableEq

/-- The literal string of an `FKAction`. -/
def FKAction.render : FKAction → String
  | .cascade => "CASCADE"
  | .setNull => "SET NULL"
  | .restrict => "RESTRICT"
  | .noAction => "NO ACTION"

/-- `interface Relationship`. -/
structure Relationship where
  id : String
  sourceTableId : String
  sourceColumnId : String
  targetTableId : String
  targetColumnId : String
  onDelete : Option FKAction := none
  onUpdate : Option FKAction := none
deriving Repr, DecidableEq

/-! ## DDL generator (`generateCreateTableSQL`) -/

/-- The `AUTO_INCREMENT` fragment appended to a column definition:
emitted exactly when the flag is set and
`col.type.toUpperCase().includes('INT')`. -/
def autoIncrementClause (col : Column) : String :=
  if col.isAutoIncrement && jsIncludes (jsToUpper col.type) "INT" then " AUTO_INCREMENT"
  else ""

/-- The `DEFAULT` fragment appended to a column definition.  The guard of
the source is `if (col.defaultValue && !col.isAutoIncrement)`; an absent
`defaultValue` and the empty string are both falsy in JavaScript, hence
the `dv != ""` test. -/
def defaultClause (col : Column) : String :=
  match col.defaultValue with
  | none => ""
  | some dv =>
    if dv != "" && !col.isAutoIncrement then
      let upperDefault := jsTrim (jsToUpper dv)
      if upperDefault == "NULL" then " DEFAULT NULL"
      else if upperDefault == "CURRENT_TIMESTAMP" then " DEFAULT CURRENT_TIMESTAMP"
      else if upperDefault == "CURRENT_DATE" then " DEFAULT (CURRENT_DATE)"
      else " DEFAULT '" ++ escapeQuotes dv ++ "'"
    else ""

/-- One element of `columnDefs`: the per-column definition built by the
`forEach` body (name, type, `NOT NULL`, `AUTO_INCREMENT`, `DEFAULT`,
inline `UNIQUE`). -/
def columnDef (col : Column) : String :=
  "`" ++ sanitize col.name ++ "` " ++ col.type
    ++ (if !col.isNullable then " NOT NULL" else "")
    ++ autoIncrementClause col
    ++ defaultClause col
    ++ (if col.isUnique && !col.isPrimaryKey then " UNIQUE" else "")

/-- The table-level constraints contributed by one column, in push order:
a `PRIMARY KEY` entry when the column is a primary key, then a named
`CHECK` entry when `col.checkConstraint` is truthy (present and
non-empty). -/
def tableConstraints (safeName : String) (col : Column) : List String :=
  (if col.isPrimaryKey then ["PRIMARY KEY (`" ++ sanitize col.name ++ "`)"] else [])
    ++ (match col.checkConstraint with
        | none => []
        | some chk =>
          if chk != "" then
            ["CONSTRAINT `chk_" ++ safeName ++ "_" ++ sanitize col.name ++ "` CHECK ("
              ++ chk ++ ")"]
          else [])

/-- `generateCreateTableSQL(table)`. -/
def generateCreateTableSQL (table : Table) : String :=
  let safeName := sanitize table.name
  if table.columns.length == 0 then
    "CREATE TABLE IF NOT EXISTS `" ++ safeName
      ++ "` (\n      `_placeholder` INT COMMENT 'Placeholder column - add columns to replace'\n    ) ENGINE=InnoDB DEFAULT CHARSET=utf8mb4;"
  else
    let columnDefs := table.columns.map columnDef
    let constraints := (table.columns.map (tableConstraints safeName)).flatten
    let allDefs := String.intercalate ",\n  " (columnDefs ++ constraints)
    "CREATE TABLE IF NOT EXISTS `" ++ safeName ++ "` (\n  " ++ allDefs
      ++ "\n) ENGINE=InnoDB DEFAULT CHARSET=utf8mb4;"

/-! ## The driver environment

`connection.query` is modelled by an environment: `exec` maps each query
string to either a successful (ignored) result or a thrown driver error
carrying a message; the two queries whose result values matter —
`SHOW TABLES` of the sync pass and the information-schema existence probe
of database creation — are modelled by dedicated environment fields
returning their decoded result. -/

/-- The observable behaviour of one `mysql2` connection during a sync
pass. -/
structure SyncEnv where
  /-- `mysql.createConnection(...)`: `.error e` models a thrown
  connection failure. -/
  connect : Except String Unit
  /-- The decoded result of `SHOW TABLES` (one table name per row). -/
  showTables : Except String (List String)
  /-- `connection.query sql` for every other statement. -/
  exec : String → Except String Unit

/-- One entry of the `details` log. -/
inductive Detail where
  | droppedTable (name : String)
  | recreatingTable (name : String)
  | createdTable (name : String) (columnCount : Nat)
  | addedFK (sourceTable sourceColumn targetTable targetColumn : String)
  | fkFailed (sourceTable sourceColumn : String) (message : String)
deriving Repr, DecidableEq

/-- The mutable state threaded through a sync pass: the trace of queries
handed to `connection.query` so far (instrumentation) and the `details`
log built so far. -/
structure SyncState where
  executed : List String
  details : List Detail
deriving Repr, DecidableEq

/-- `DROP TABLE IF EXISTS \`name\``. -/
def dropTableSQL (name : String) : String :=
  "DROP TABLE IF EXISTS `" ++ name ++ "`"

/-- `SET FOREIGN_KEY_CHECKS = 0`. -/
def fkChecksOff : String := "SET FOREIGN_KEY_CHECKS = 0"

/-- `SET FOREIGN_KEY_CHECKS = 1`. -/
def fkChecksOn : String := "SET FOREIGN_KEY_CHECKS = 1"

/-- `SHOW TABLES`. -/
def showTablesSQL : String := "SHOW TABLES"

/-- Issue one query: it is appended to the trace, and a driver error
aborts with the state reached so far (the `details` array survives into
the top-level `catch`). -/
def execQuery (env : SyncEnv) (sql : String) (st : SyncState) :
    Except (String × SyncState) SyncState :=
  let st' : SyncState := { st with executed := st.executed ++ [sql] }
  match env.exec sql with
  | .ok _ => .ok st'
  | .error e => .error (e, st')

/-- The prune loop: `for (const existingTable of existingTables) { if
(!schemaTableNames.includes(existingTable)) { drop; log } }`.  A query
error is not caught here and propagates. -/
def runPrune (env : SyncEnv) (schemaTableNames : List String) :
    List String → SyncState → Except (String × SyncState) SyncState
  | [], st => .ok st
  | t :: rest, st =>
    if schemaTableNames.contains t then runPrune env schemaTableNames rest st
    else
      match execQuery env (dropTableSQL t) st with
      | .error e => .error e
      | .ok st' =>
        runPrune env schemaTableNames rest
          { st' with details := st'.details ++ [.droppedTable t] }

/-- The materialize loop: for each document table, drop a live table of
the same sanitized name first, then execute the generated `CREATE TABLE`.
No per-table `try`/`catch`: a query error propagates and the remaining
tables are never reached. -/
def runMaterialize (env : SyncEnv) (existingTables : List String) :
    List Table → SyncState → Except (String × SyncState) SyncState
  | [], st => .ok st
  | tb :: rest, st =>
    let safeName := sanitize tb.name
    let afterDrop : Except (String × SyncState) SyncState :=
      if existingTables.contains safeName then
        match execQuery env (dropTableSQL safeName) st with
        | .error e => .error e
        | .ok st' => .ok { st' with details := st'.details ++ [.recreatingTable safeName] }
      else .ok st
    match afterDrop with
    | .error e => .error e
    | .ok st' =>
      match execQuery env (generateCreateTableSQL tb) st' with
      | .error e => .error e
      | .ok st'' =>
        runMaterialize env existingTables rest
          { st'' with details := st''.details ++ [.createdTable safeName tb.columns.length] }

/-- Resolve a relationship's four endpoint ids inside the document, in
source order: source table, target table, source column, target column.
`none` models the `continue` taken when any lookup fails. -/
def resolveRel (tables : List Table) (rel : Relationship) :
    Option (Table × Table × Column × Column) :=
  match tables.find? (fun t => t.id == rel.sourceTableId) with
  | none => none
  | some sourceTable =>
    match tables.find? (fun t => t.id == rel.targetTableId) with
    | none => none
    | some targetTable =>
      match sourceTable.columns.find? (fun c => c.id == rel.sourceColumnId) with
      | none => none
      | some sourceColumn =>
        match targetTable.columns.find? (fun c => c.id == rel.targetColumnId) with
        | none => none
        | some targetColumn => some (sourceTable, targetTable, sourceColumn, targetColumn)

/-- The `ALTER TABLE … ADD CONSTRAINT … FOREIGN KEY` template literal,
byte for byte (the source's template keeps its newlines and
indentation). -/
def alterAddFKSQL (sourceTable constraintName sourceColumn targetTable targetColumn
    onDeleteAction onUpdateAction : String) : String :=
  "\n        ALTER TABLE `" ++ sourceTable
    ++ "`\n        ADD CONSTRAINT `" ++ constraintName
    ++ "`\n        FOREIGN KEY (`" ++ sourceColumn
    ++ "`)\n        REFERENCES `" ++ targetTable ++ "`(`" ++ targetColumn
    ++ "`)\n        ON DELETE " ++ onDeleteAction
    ++ "\n        ON UPDATE " ++ onUpdateAction
    ++ "\n      "

/-- The statement built for one resolved relationship: sanitized
identifiers, constraint name `fk_<sourceTable>_<sourceColumn>`, and
`onDelete`/`onUpdate` defaulting to `CASCADE` (`rel.onDelete || 'CASCADE'`). -/
def relAlterSQL (rel : Relationship) (sourceTable targetTable : Table)
    (sourceColumn targetColumn : Column) : String :=
  alterAddFKSQL (sanitize sourceTable.name)
    ("fk_" ++ sanitize sourceTable.name ++ "_" ++ sanitize sourceColumn.name)
    (sanitize sourceColumn.name) (sanitize targetTable.name) (sanitize targetColumn.name)
    (rel.onDelete.getD .cascade).render (rel.onUpdate.getD .cascade).render

/-- The relationship loop.  Unresolvable endpoints `continue` with the
state untouched; the query of a resolved relationship sits in its own
`try`/`catch`, so this loop never propagates an error: it returns a plain
state. -/
def runRelationships (env : SyncEnv) (tables : List Table) :
    List Relationship → SyncState → SyncState
  | [], st => st
  | rel :: rest, st =>
    match resolveRel tables rel with
    | none => runRelationships env tables rest st
    | some (sourceTable, targetTable, sourceColumn, targetColumn) =>
      let alterSQL := relAlterSQL rel sourceTable targetTable sourceColumn targetColumn
      let st' : SyncState := { st with executed := st.executed ++ [alterSQL] }
      match env.exec alterSQL with
      | .ok _ =>
        runRelationships env tables rest
          { st' with details := st'.details
              ++ [.addedFK (sanitize sourceTable.name) (sanitize sourceColumn.name)
                    (sanitize targetTable.name) (sanitize targetColumn.name)] }
      | .error e =>
        runRelationships env tables rest
          { st' with details := st'.details
              ++ [.fkFailed (sanitize sourceTable.name) (sanitize sourceColumn.name) e] }

/-- The result of `syncSchemaToMySQL`, extended with the query trace. -/
structure SyncResult where
  success : Bool
  message : String
  details : List Detail
  trace : List String
deriving Repr, DecidableEq

/-- The message of the top-level `catch`. -/
def syncFailedMsg (e : String) : String := "MySQL sync failed: " ++ e

/-- The success message. -/
def syncedMsg (tableCount relCount : Nat) : String :=
  "Synced " ++ toString tableCount ++ " tables and " ++ toString relCount
    ++ " relationships to MySQL"

/-- `syncSchemaToMySQL(config, databaseName, tables, relationships)`:
connect, disable FK checks, inventory, prune, materialize, wire
relationships, re-enable FK checks.  Any uncaught error lands in the
top-level `catch`, which returns `success: false` with the details
accumulated so far. -/
def syncSchemaToMySQL (env : SyncEnv) (tables : List Table)
    (relationships : List Relationship) : SyncResult :=
  match env.connect with
  | .error e => ⟨false, syncFailedMsg e, [], []⟩
  | .ok _ =>
    match execQuery env fkChecksOff ⟨[], []⟩ with
    | .error (e, st) => ⟨false, syncFailedMsg e, st.details, st.executed⟩
    | .ok st0 =>
      let st1 : SyncState := { st0 with executed := st0.executed ++ [showTablesSQL] }
      match env.showTables with
      | .error e => ⟨false, syncFailedMsg e, st1.details, st1.executed⟩
      | .ok existingTables =>
        let schemaTableNames := tables.map (fun t => sanitize t.name)
        match runPrune env schemaTableNames existingTables st1 with
        | .error (e, st) => ⟨false, syncFailedMsg e, st.details, st.executed⟩
        | .ok st2 =>
          match runMaterialize env existingTables tables st2 with
          | .error (e, st) => ⟨false, syncFailedMsg e, st.details, st.executed⟩
          | .ok st3 =>
            let st4 := runRelationships env tables relationships st3
            match execQuery env fkChecksOn st4 with
            | .error (e, st) => ⟨false, syncFailedMsg e, st.details, st.executed⟩
            | .ok st5 =>
              ⟨true, syncedMsg tables.length relationships.length, st5.details, st5.executed⟩

/-! ## Database creation (`createMySQLDatabase`) -/

/-- The observable behaviour of one connection during database
creation. -/
structure CreateDbEnv where
  /-- `mysql.createConnection(...)`. -/
  connect : Except String Unit
  /-- The parameterized information-schema probe
  `SELECT SCHEMA_NAME FROM INFORMATION_SCHEMA.SCHEMATA WHERE SCHEMA_NAME = ?`:
  `true` iff it returns at least one row for the given name. -/
  schemaExists : String → Except String Bool
  /-- `connection.query` for the `CREATE DATABASE` statement. -/
  exec : String → Except String Unit

/-- `CREATE DATABASE \`name\``. -/
def createDatabaseSQL (name : String) : String :=
  "CREATE DATABASE `" ++ name ++ "`"

/-- The result of `createMySQLDatabase`, extended with the trace of DDL
statements handed to `connection.query`. -/
structure DbResult where
  success : Bool
  message : String
  trace : List String
deriving Repr, DecidableEq

/-- `createMySQLDatabase(config, databaseName)`: sanitize, probe the
information schema, refuse when the database exists, create it
otherwise; every thrown driver error is converted by the `catch` into a
`success: false` result. -/
def createMySQLDatabase (env : CreateDbEnv) (databaseName : String) : DbResult :=
  match env.connect with
  | .error e => ⟨false, e, []⟩
  | .ok _ =>
    let safeName := sanitize databaseName
    match env.schemaExists safeName with
    | .error e => ⟨false, e, []⟩
    | .ok true => ⟨false, "Database '" ++ safeName ++ "' already exists", []⟩
    | .ok false =>
      match env.exec (createDatabaseSQL safeName) with
      | .error e => ⟨false, e, [createDatabaseSQL safeName]⟩
      | .ok _ =>
        ⟨true, "Database '" ++ safeName ++ "' created successfully",
          [createDatabaseSQL safeName]⟩

/-! ## Generic helper lemmas -/

theorem data_append (a b : String) : (a ++ b).data = a.data ++ b.data := rfl

theorem length_eq_data_length (s : String) : s.length = s.data.length := rfl

/-- The character class of the spec's regular expression
`^[A-Za-z0-9_]*$`, stated as a proposition. -/
def SpecSafeChar (c : Char) : Prop :=
  ('A' ≤ c ∧ c ≤ 'Z') ∨ ('a' ≤ c ∧ c ≤ 'z') ∨ ('0' ≤ c ∧ c ≤ '9') ∨ c = '_'

theorem isWordChar_iff {c : Char} : isWordChar c = true ↔ SpecSafeChar c := by
  simp only [isWordChar, decide_eq_true_iff, SpecSafeChar]
  tauto

/-! ## Test fixtures -/

/-- A column with `isAutoIncrement` set but a non-integer type. -/
def varcharAICol : Column :=
  { id := "c1", name := "code", type := "VARCHAR(10)", isPrimaryKey := false,
    isNullable := true, isAutoIncrement := true }

/-- A column with `isAutoIncrement` set and an integer type. -/
def bigintAICol : Column :=
  { id := "c1", name := "seq", type := "BIGINT", isPrimaryKey := false,
    isNullable := true, isAutoIncrement := true }

/-- A column whose default value embeds a single quote. -/
def obrienCol : Column :=
  { id := "c1", name := "surname", type := "TEXT", isPrimaryKey := false,
    isNullable := true, defaultValue := some "O'Brien" }

/-- A column whose default value is the `CURRENT_DATE` sentinel. -/
def currentDateCol : Column :=
  { id := "c1", name := "d", type := "DATE", isPrimaryKey := false,
    isNullable := true, defaultValue := some "CURRENT_DATE" }

/-! ## C6 — sanitizer totality -/

/-- C6: the identifier sanitizer is total and deterministic: for every
input string the output has the same length as the input, every output
character lies in `[A-Za-z0-9_]`, and position by position a safe
character is kept while every other character becomes one underscore. -/
theorem sanitize_total_length_preserving (s : String) :
    (sanitize s).length = s.length ∧
    (∀ c ∈ (sanitize s).data, SpecSafeChar c) ∧
    (∀ i : Nat, ∀ c c' : Char, s.data[i]? = some c → (sanitize s).data[i]? = some c' →
      (SpecSafeChar c → c' = c) ∧ (¬ SpecSafeChar c → c' = '_')) := by
  refine ⟨?_, ?_, ?_⟩
  · show (s.data.map _).length = s.data.length
    exact List.length_map _ _
  · intro c hc
    simp only [sanitize, List.mem_map] at hc
    obtain ⟨a, -, rfl⟩ := hc
    by_cases h : isWordChar a
    · simpa [h] using isWordChar_iff.mp h
    · simp only [h, if_neg, Bool.false_eq_true, not_false_iff, if_false]
      exact Or.inr (Or.inr (Or.inr rfl))
  · intro i c c' h1 h2
    simp only [sanitize, List.getElem?_map, h1, Option.map_some'] at h2
    by_cases h : isWordChar c
    · have : c' = c := by simpa [h] using h2.symm
      exact ⟨fun _ => this, fun hn => absurd (isWordChar_iff.mp h) hn⟩
    · have : c' = '_' := by simpa [h] using h2.symm
      refine ⟨fun hs => ?_, fun _ => this⟩
      exact absurd (isWordChar_iff.mpr hs) h

/-- Witness: C6 at the concrete input `"a b-c!"`. -/
theorem sanitize_total_length_preserving_witness :
    (sanitize "a b-c!").length = ("a b-c!" : String).length ∧
    (∀ c ∈ (sanitize "a b-c!").data, SpecSafeChar c) ∧
    (∀ i : Nat, ∀ c c' : Char, ("a b-c!" : String).data[i]? = some c →
      (sanitize "a b-c!").data[i]? = some c' →
      (SpecSafeChar c → c' = c) ∧ (¬ SpecSafeChar c → c' = '_')) :=
  sanitize_total_length_preserving "a b-c!"

/-! ## C8 — zero-column tables -/

/-- C8: a table with an empty column list still yields a
`CREATE TABLE IF NOT EXISTS` statement, containing the single
placeholder integer column. -/
theorem zero_column_table_produces_placeholder_ddl (table : Table)
    (h : table.columns = []) :
    generateCreateTableSQL table =
      "CREATE TABLE IF NOT EXISTS `" ++ sanitize table.name
        ++ "` (\n      `_placeholder` INT COMMENT 'Placeholder column - add columns to replace'\n    ) ENGINE=InnoDB DEFAULT CHARSET=utf8mb4;" ∧
    ("CREATE TABLE IF NOT EXISTS ".data <+: (generateCreateTableSQL table).data) ∧
    ("`_placeholder` INT".data <:+: (generateCreateTableSQL table).data) := by
  have e : generateCreateTableSQL table =
      "CREATE TABLE IF NOT EXISTS `" ++ sanitize table.name
        ++ "` (\n      `_placeholder` INT COMMENT 'Placeholder column - add columns to replace'\n    ) ENGINE=InnoDB DEFAULT CHARSET=utf8mb4;" := by
    simp [generateCreateTableSQL, h]
  refine ⟨e, ?_, ?_⟩
  · rw [e, data_append, data_append]
    have hsplit : ("CREATE TABLE IF NOT EXISTS `" : String).data =
        ("CREATE TABLE IF NOT EXISTS " : String).data ++ ['`'] := by decide
    rw [hsplit, List.append_assoc, List.append_assoc]
    exact List.prefix_append _ _
  · rw [e, data_append, data_append]
    have hin : ("`_placeholder` INT" : String).data <:+:
        ("` (\n      `_placeholder` INT COMMENT 'Placeholder column - add columns to replace'\n    ) ENGINE=InnoDB DEFAULT CHARSET=utf8mb4;" : String).data := by
      decide
    exact hin.trans (List.suffix_append _ _).isInfix

/-- Witness: C8 at a concrete zero-column table. -/
theorem zero_column_table_witness :
    generateCreateTableSQL ⟨"t1", "drafts", []⟩ =
      "CREATE TABLE IF NOT EXISTS `" ++ sanitize "drafts"
        ++ "` (\n      `_placeholder` INT COMMENT 'Placeholder column - add columns to replace'\n    ) ENGINE=InnoDB DEFAULT CHARSET=utf8mb4;" ∧
    ("CREATE TABLE IF NOT EXISTS ".data <+: (generateCreateTableSQL ⟨"t1", "drafts", []⟩).data) ∧
    ("`_placeholder` INT".data <:+: (generateCreateTableSQL ⟨"t1", "drafts", []⟩).data) :=
  zero_column_table_produces_placeholder_ddl ⟨"t1", "drafts", []⟩ rfl

/-! ## C10 — empty-string default -/

/-- C10: a column whose `defaultValue` is the empty string produces no
`DEFAULT` clause and the same column definition as one with no
`defaultValue` at all (the source's guard `col.defaultValue && …` treats
the empty string as falsy). -/
theorem empty_default_value_emits_no_default_clause (col : Column)
    (h : col.defaultValue = some "") :
    defaultClause col = "" ∧
    columnDef col = columnDef { col with defaultValue := none } := by
  obtain ⟨id, name, ty, pk, nl, uq, ai, dv, ck⟩ := col
  simp only [Option.some.injEq] at h
  subst h
  refine ⟨?_, ?_⟩
  · simp [defaultClause]
  · simp [columnDef, defaultClause, autoIncrementClause]

/-- Witness: C10 at a concrete column. -/
theorem empty_default_value_witness :
    defaultClause
        { id := "c1", name := "note", type := "TEXT", isPrimaryKey := false,
          isNullable := true, defaultValue := some "" } = "" ∧
    columnDef
        { id := "c1", name := "note", type := "TEXT", isPrimaryKey := false,
          isNullable := true, defaultValue := some "" } =
      columnDef
        { id := "c1", name := "note", type := "TEXT", isPrimaryKey := false,
          isNullable := true, defaultValue := none } :=
  empty_default_value_emits_no_default_clause _ rfl

/-! ## C7 — auto-increment gating -/

/-- C7: the `AUTO_INCREMENT` fragment is emitted exactly when the
auto-increment flag is set and the uppercased type expression contains
the substring `INT`; with type `VARCHAR(10)` the flag is silently
dropped, with `BIGINT` it is honoured. -/
theorem auto_increment_gated_by_int_type :
    (∀ col : Column,
      autoIncrementClause col = " AUTO_INCREMENT" ∨ autoIncrementClause col = "") ∧
    (∀ col : Column,
      autoIncrementClause col = " AUTO_INCREMENT" ↔
        (col.isAutoIncrement = true ∧ "INT".data <:+: (jsToUpper col.type).data)) ∧
    (¬ ("AUTO_INCREMENT".data <:+: (columnDef varcharAICol).data)) ∧
    (" AUTO_INCREMENT".data <:+: (columnDef bigintAICol).data) := by
  refine ⟨?_, ?_, by decide, by decide⟩
  · intro col
    by_cases h : (col.isAutoIncrement && jsIncludes (jsToUpper col.type) "INT") = true
    · exact Or.inl (by simp [autoIncrementClause, h])
    · exact Or.inr (by simp [autoIncrementClause, h])
  · intro col
    unfold autoIncrementClause
    by_cases h : (col.isAutoIncrement && jsIncludes (jsToUpper col.type) "INT") = true
    · rw [if_pos h]
      simp only [Bool.and_eq_true, jsIncludes, decide_eq_true_iff] at h
      simpa using h
    · rw [if_neg h]
      simp only [Bool.and_eq_true, jsIncludes, decide_eq_true_iff] at h
      constructor
      · intro he
        exact ((by decide : ("" : String) ≠ " AUTO_INCREMENT") he).elim
      · intro hc
        exact absurd hc h

/-- Witness: C7's universally quantified parts at the `BIGINT` column. -/
theorem auto_increment_gating_witness :
    (autoIncrementClause bigintAICol = " AUTO_INCREMENT" ∨
      autoIncrementClause bigintAICol = "") ∧
    (autoIncrementClause bigintAICol = " AUTO_INCREMENT" ↔
      (bigintAICol.isAutoIncrement = true ∧
        "INT".data <:+: (jsToUpper bigintAICol.type).data)) :=
  ⟨auto_increment_gated_by_int_type.1 bigintAICol,
   auto_increment_gated_by_int_type.2.1 bigintAICol⟩

/-! ## C4 — the DEFAULT clause cases -/

/-- C4 counterexample: for a non-auto-increment column whose present
default value is `CURRENT_DATE`, the emitted clause is the parenthesized
` DEFAULT (CURRENT_DATE)`, not the bare keyword clause the claim
describes; in particular the generated column definition does not
contain `DEFAULT CURRENT_DATE`. -/
theorem current_date_default_not_unquoted_keyword :
    currentDateCol.defaultValue = some "CURRENT_DATE" ∧
    currentDateCol.isAutoIncrement = false ∧
    defaultClause currentDateCol = " DEFAULT (CURRENT_DATE)" ∧
    defaultClause currentDateCol ≠ " DEFAULT CURRENT_DATE" ∧
    ¬ ("DEFAULT CURRENT_DATE".data <:+: (columnDef currentDateCol).data) := by
  refine ⟨rfl, rfl, by decide, by decide, by decide⟩

/-- C4 (amended): for a present, non-empty default on a non-auto-increment
column the `DEFAULT` clause has exactly these cases on the uppercased,
trimmed value — `NULL` unquoted, `CURRENT_TIMESTAMP` unquoted,
`CURRENT_DATE` unquoted but parenthesized as `(CURRENT_DATE)`, and any
other value single-quoted with embedded quotes doubled; an
auto-increment column gets no `DEFAULT` clause; the clause sits inside
the generated column definition. -/
theorem default_clause_amended_cases :
    (∀ (col : Column) (dv : String), col.defaultValue = some dv → dv ≠ "" →
      col.isAutoIncrement = false →
      (jsTrim (jsToUpper dv) = "NULL" → defaultClause col = " DEFAULT NULL") ∧
      (jsTrim (jsToUpper dv) = "CURRENT_TIMESTAMP" →
        defaultClause col = " DEFAULT CURRENT_TIMESTAMP") ∧
      (jsTrim (jsToUpper dv) = "CURRENT_DATE" →
        defaultClause col = " DEFAULT (CURRENT_DATE)") ∧
      (jsTrim (jsToUpper dv) ≠ "NULL" → jsTrim (jsToUpper dv) ≠ "CURRENT_TIMESTAMP" →
        jsTrim (jsToUpper dv) ≠ "CURRENT_DATE" →
        defaultClause col = " DEFAULT '" ++ escapeQuotes dv ++ "'")) ∧
    (∀ col : Column, col.isAutoIncrement = true → defaultClause col = "") ∧
    (∀ col : Column, (defaultClause col).data <:+: (columnDef col).data) ∧
    escapeQuotes "O'Brien" = "O''Brien" ∧
    ("'O''Brien'".data <:+: (columnDef obrienCol).data) := by
  refine ⟨?_, ?_, ?_, by decide, by decide⟩
  · intro col dv hdv hne hai
    have hba : (dv != "") = true := by simpa using hne
    refine ⟨?_, ?_, ?_, ?_⟩ <;> intro h1
    · simp [defaultClause, hdv, hba, hai, h1]
    · simp [defaultClause, hdv, hba, hai, h1]
    · simp [defaultClause, hdv, hba, hai, h1]
    · intro h2 h3
      simp [defaultClause, hdv, hba, hai, h1, h2, h3]
  · intro col
    intro hai
    cases hdv : col.defaultValue with
    | none => simp [defaultClause, hdv]
    | some dv => simp [defaultClause, hdv, hai]
  · intro col
    show (defaultClause col).data <:+: (columnDef col).data
    simp only [columnDef, data_append]
    exact List.infix_append _ _ _

/-- Witness: the amended C4 cases at concrete columns. -/
theorem default_clause_amended_witness :
    ((jsTrim (jsToUpper "O'Brien") = "NULL" →
        defaultClause obrienCol = " DEFAULT NULL") ∧
     (jsTrim (jsToUpper "O'Brien") = "CURRENT_TIMESTAMP" →
        defaultClause obrienCol = " DEFAULT CURRENT_TIMESTAMP") ∧
     (jsTrim (jsToUpper "O'Brien") = "CURRENT_DATE" →
        defaultClause obrienCol = " DEFAULT (CURRENT_DATE)") ∧
     (jsTrim (jsToUpper "O'Brien") ≠ "NULL" →
        jsTrim (jsToUpper "O'Brien") ≠ "CURRENT_TIMESTAMP" →
        jsTrim (jsToUpper "O'Brien") ≠ "CURRENT_DATE" →
        defaultClause obrienCol = " DEFAULT '" ++ escapeQuotes "O'Brien" ++ "'")) ∧
    defaultClause bigintAICol = "" ∧
    (defaultClause obrienCol).data <:+: (columnDef obrienCol).data :=
  ⟨default_clause_amended_cases.1 obrienCol "O'Brien" rfl (by decide) rfl,
   default_clause_amended_cases.2.1 bigintAICol rfl,
   default_clause_amended_cases.2.2.1 obrienCol⟩

/-! ## Helper lemmas about the sync phases -/

/-- The state reached by a phase, whether it completed or aborted. -/
def stateOf : Except (String × SyncState) SyncState → SyncState
  | .ok st => st
  | .error (_, st) => st

theorem runPrune_ok_eq (env : SyncEnv) (D : List String) :
    ∀ (L : List String) (st st' : SyncState), runPrune env D L st = .ok st' →
      st'.executed = st.executed
          ++ (L.filter (fun t => !(D.contains t))).map dropTableSQL ∧
      st'.details = st.details
          ++ (L.filter (fun t => !(D.contains t))).map Detail.droppedTable := by
  intro L
  induction L with
  | nil =>
    intro st st' h
    simp only [runPrune, Except.ok.injEq] at h
    subst h
    simp
  | cons t rest ih =>
    intro st st' h
    rw [runPrune] at h
    by_cases hm : t ∈ D
    · have hc : D.contains t = true := by simpa [List.contains] using hm
      rw [if_pos hc] at h
      obtain ⟨h1, h2⟩ := ih st st' h
      rw [h1, h2]
      constructor <;> simp [List.filter_cons, hm]
    · have hc : ¬ (D.contains t = true) := by simpa [List.contains] using hm
      rw [if_neg hc] at h
      unfold execQuery at h
      cases he : env.exec (dropTableSQL t) with
      | error e => rw [he] at h; exact absurd h (by simp)
      | ok u =>
        rw [he] at h
        obtain ⟨h1, h2⟩ := ih _ _ h
        simp only at h1 h2
        rw [h1, h2]
        constructor <;> simp [List.filter_cons, hm]

theorem runPrune_dropped_mem (env : SyncEnv) (D : List String) :
    ∀ (L : List String) (st : SyncState) (t : String),
      Detail.droppedTable t ∈ (stateOf (runPrune env D L st)).details →
      Detail.droppedTable t ∈ st.details ∨ (t ∈ L ∧ D.contains t = false) := by
  intro L
  induction L with
  | nil =>
    intro st t h
    simp only [runPrune, stateOf] at h
    exact Or.inl h
  | cons x rest ih =>
    intro st t h
    by_cases hc : D.contains x
    · rw [runPrune, if_pos hc] at h
      rcases ih _ _ h with h1 | ⟨h2, h3⟩
      · exact Or.inl h1
      · exact Or.inr ⟨List.mem_cons_of_mem _ h2, h3⟩
    · rw [runPrune, if_neg hc] at h
      unfold execQuery at h
      cases he : env.exec (dropTableSQL x) with
      | error e =>
        rw [he] at h
        simp only [stateOf] at h
        exact Or.inl h
      | ok u =>
        rw [he] at h
        rcases ih _ _ h with h1 | ⟨h2, h3⟩
        · simp only [List.mem_append, List.mem_singleton] at h1
          rcases h1 with h1 | h1
          · exact Or.inl h1
          · obtain rfl : t = x := by simpa using h1
            exact Or.inr ⟨List.mem_cons_self _ _, by simpa using hc⟩
        · exact Or.inr ⟨List.mem_cons_of_mem _ h2, h3⟩

theorem runPrune_allok (env : SyncEnv) (D : List String)
    (he : ∀ s, env.exec s = .ok ()) :
    ∀ (L : List String) (st : SyncState), ∃ st', runPrune env D L st = .ok st' := by
  intro L
  induction L with
  | nil => intro st; exact ⟨st, rfl⟩
  | cons t rest ih =>
    intro st
    by_cases hc : D.contains t
    · obtain ⟨st', h⟩ := ih st
      exact ⟨st', by rw [runPrune, if_pos hc]; exact h⟩
    · obtain ⟨st', h⟩ := ih
        { executed := st.executed ++ [dropTableSQL t],
          details := st.details ++ [.droppedTable t] }
      refine ⟨st', ?_⟩
      rw [runPrune, if_neg hc]
      unfold execQuery
      rw [he (dropTableSQL t)]
      exact h

/-- The per-table statements of the materialize phase, in issue order. -/
def materializeStmtsFor (existingTables : List String) (tb : Table) : List String :=
  (if existingTables.contains (sanitize tb.name) then [dropTableSQL (sanitize tb.name)]
   else []) ++ [generateCreateTableSQL tb]

/-- The per-table `details` entries of the materialize phase. -/
def materializeDetailsFor (existingTables : List String) (tb : Table) : List Detail :=
  (if existingTables.contains (sanitize tb.name) then
    [.recreatingTable (sanitize tb.name)]
   else []) ++ [.createdTable (sanitize tb.name) tb.columns.length]

theorem runMaterialize_allok (env : SyncEnv) (existingTables : List String)
    (he : ∀ s, env.exec s = .ok ()) :
    ∀ (tables : List Table) (st : SyncState),
      runMaterialize env existingTables tables st =
        .ok ⟨st.executed ++ tables.flatMap (materializeStmtsFor existingTables),
             st.details ++ tables.flatMap (materializeDetailsFor existingTables)⟩ := by
  intro tables
  induction tables with
  | nil => intro st; simp [runMaterialize]
  | cons tb rest ih =>
    intro st
    rw [runMaterialize]
    simp only [execQuery, he]
    by_cases hm : (sanitize tb.name) ∈ existingTables
    · have hc : existingTables.contains (sanitize tb.name) = true := by
        simpa [List.contains] using hm
      rw [if_pos hc]
      simp only []
      rw [ih]
      simp [materializeStmtsFor, materializeDetailsFor, hm]
    · have hc : ¬ (existingTables.contains (sanitize tb.name) = true) := by
        simpa [List.contains] using hm
      rw [if_neg hc]
      simp only []
      rw [ih]
      simp [materializeStmtsFor, materializeDetailsFor, hm]

/-- The relationship-phase statements: one `ALTER TABLE` per resolvable
relationship, in document order. -/
def relationshipStmts (tables : List Table) (rels : List Relationship) : List String :=
  rels.filterMap (fun rel =>
    (resolveRel tables rel).map (fun r => relAlterSQL rel r.1 r.2.1 r.2.2.1 r.2.2.2))

/-- The query trace of the relationship phase does not depend on the
driver's answers: success and failure both record exactly the attempted
`ALTER TABLE` statement. -/
theorem runRelationships_executed (env : SyncEnv) (tables : List Table) :
    ∀ (rels : List Relationship) (st : SyncState),
      (runRelationships env tables rels st).executed =
        st.executed ++ relationshipStmts tables rels := by
  intro rels
  induction rels with
  | nil => intro st; simp [runRelationships, relationshipStmts]
  | cons rel rest ih =>
    intro st
    rw [runRelationships]
    cases hr : resolveRel tables rel with
    | none =>
      simp only [hr]
      rw [ih]
      simp [relationshipStmts, hr]
    | some r =>
      obtain ⟨sourceTable, targetTable, sourceColumn, targetColumn⟩ := r
      simp only [hr]
      cases he : env.exec (relAlterSQL rel sourceTable targetTable sourceColumn targetColumn) with
      | ok u =>
        simp only [he]
        rw [ih]
        simp [relationshipStmts, hr]
      | error e =>
        simp only [he]
        rw [ih]
        simp [relationshipStmts, hr]

/-! ## C1 — prune correctness -/

/-- C1: during the prune phase the set of live tables dropped is exactly
`L \ D`: on a completed prune a table is logged as dropped iff it is
live and its name is not a schema table name, and even on an aborted
prune no table whose name is in `D` is ever dropped. -/
theorem prune_drops_exactly_the_nonschema_tables (env : SyncEnv) (L D : List String) :
    (∀ st', runPrune env D L ⟨[], []⟩ = .ok st' →
      ∀ t, Detail.droppedTable t ∈ st'.details ↔ (t ∈ L ∧ t ∉ D)) ∧
    (∀ e stf, runPrune env D L ⟨[], []⟩ = .error (e, stf) →
      ∀ t, Detail.droppedTable t ∈ stf.details → (t ∈ L ∧ t ∉ D)) := by
  constructor
  · intro st' h t
    have hd := (runPrune_ok_eq env D L ⟨[], []⟩ st' h).2
    simp only at hd
    rw [hd]
    simp only [List.nil_append, List.mem_map, List.mem_filter]
    constructor
    · rintro ⟨a, ⟨haL, haD⟩, ha⟩
      obtain rfl : a = t := by simpa using ha
      refine ⟨haL, ?_⟩
      simpa [List.contains] using haD
    · rintro ⟨htL, htD⟩
      refine ⟨t, ⟨htL, ?_⟩, rfl⟩
      simpa [List.contains] using htD
  · intro e stf h t ht
    have := runPrune_dropped_mem env D L ⟨[], []⟩ t (by rw [h]; exact ht)
    rcases this with h1 | ⟨h2, h3⟩
    · exact absurd h1 (by simp)
    · exact ⟨h2, by simpa [List.contains] using h3⟩

/-- A driver environment in which every operation succeeds and the
database holds the live tables `keep` and `old`. -/
def envAllOk : SyncEnv := ⟨.ok (), .ok ["keep", "old"], fun _ => .ok ()⟩

/-- Witness: C1 on the inventory `["keep", "old"]` against the document
names `["keep"]`; only `old` is dropped. -/
theorem prune_drops_witness :
    ∀ t, Detail.droppedTable t ∈
        (SyncState.mk [dropTableSQL "old"] [Detail.droppedTable "old"]).details ↔
      (t ∈ ["keep", "old"] ∧ t ∉ ["keep"]) :=
  (prune_drops_exactly_the_nonschema_tables envAllOk ["keep", "old"] ["keep"]).1
    ⟨[dropTableSQL "old"], [.droppedTable "old"]⟩ rfl

/-! ## C2 — relationship resolution gates the FK DDL -/

/-- C2: a relationship whose four endpoint ids resolve inside the
document causes exactly one `ALTER TABLE … ADD CONSTRAINT` attempt, with
constraint name `fk_<sourceTable>_<sourceColumn>` over sanitized names
and with `ON DELETE`/`ON UPDATE` defaulting to `CASCADE`, and exactly
one `details` entry; a relationship with an unresolvable endpoint leaves
the state untouched — no DDL attempted and no `details` entry. -/
theorem relationship_resolution_gates_fk_ddl (env : SyncEnv) (tables : List Table)
    (rel : Relationship) (rest : List Relationship) (st : SyncState) :
    (∀ sourceTable targetTable sourceColumn targetColumn,
      resolveRel tables rel = some (sourceTable, targetTable, sourceColumn, targetColumn) →
      ∃ st' : SyncState,
        runRelationships env tables (rel :: rest) st =
          runRelationships env tables rest st' ∧
        st'.executed = st.executed
          ++ [alterAddFKSQL (sanitize sourceTable.name)
                ("fk_" ++ sanitize sourceTable.name ++ "_" ++ sanitize sourceColumn.name)
                (sanitize sourceColumn.name) (sanitize targetTable.name)
                (sanitize targetColumn.name)
                (rel.onDelete.getD .cascade).render (rel.onUpdate.getD .cascade).render] ∧
        st'.details.length = st.details.length + 1) ∧
    (rel.onDelete = none → (rel.onDelete.getD .cascade).render = "CASCADE") ∧
    (rel.onUpdate = none → (rel.onUpdate.getD .cascade).render = "CASCADE") ∧
    (resolveRel tables rel = none →
      runRelationships env tables (rel :: rest) st =
        runRelationships env tables rest st) := by
  refine ⟨?_, ?_, ?_, ?_⟩
  · intro sourceTable targetTable sourceColumn targetColumn hr
    rw [runRelationships]
    simp only [hr]
    cases he : env.exec (relAlterSQL rel sourceTable targetTable sourceColumn targetColumn) with
    | ok u =>
      simp only [he]
      exact ⟨_, rfl, rfl, by simp⟩
    | error e =>
      simp only [he]
      exact ⟨_, rfl, rfl, by simp⟩
  · intro h; rw [h]; rfl
  · intro h; rw [h]; rfl
  · intro hr
    rw [runRelationships]
    simp only [hr]

/-- The end-to-end fixture tables of the spec: `users` and `posts`. -/
def usersTable : Table :=
  { id := "t1", name := "users",
    columns := [
      { id := "c1", name := "id", type := "INT", isPrimaryKey := true,
        isNullable := false, isAutoIncrement := true },
      { id := "c2", name := "email", type := "VARCHAR(255)", isPrimaryKey := false,
        isNullable := false, isUnique := true }] }

/-- The `posts` fixture table. -/
def postsTable : Table :=
  { id := "t2", name := "posts",
    columns := [
      { id := "c3", name := "id", type := "INT", isPrimaryKey := true,
        isNullable := false, isAutoIncrement := true },
      { id := "c4", name := "user_id", type := "INT", isPrimaryKey := false,
        isNullable := true }] }

/-- The fixture relationship `posts.user_id → users.id`. -/
def postsUserRel : Relationship :=
  { id := "r1", sourceTableId := "t2", sourceColumnId := "c4",
    targetTableId := "t1", targetColumnId := "c1", onDelete := some .cascade }

/-- Witness: C2 on the `posts.user_id → users.id` fixture. -/
theorem relationship_resolution_witness :
    ∃ st' : SyncState,
      runRelationships envAllOk [usersTable, postsTable] [postsUserRel] ⟨[], []⟩ =
        runRelationships envAllOk [usersTable, postsTable] [] st' ∧
      st'.executed = ([] : List String)
        ++ [alterAddFKSQL (sanitize postsTable.name)
              ("fk_" ++ sanitize postsTable.name ++ "_" ++ sanitize "user_id")
              (sanitize "user_id") (sanitize usersTable.name) (sanitize "id")
              (postsUserRel.onDelete.getD .cascade).render
              (postsUserRel.onUpdate.getD .cascade).render] ∧
      st'.details.length = ([] : List Detail).length + 1 :=
  (relationship_resolution_gates_fk_ddl envAllOk [usersTable, postsTable]
    postsUserRel [] ⟨[], []⟩).1 postsTable usersTable
    ⟨"c4", "user_id", "INT", false, true, false, false, none, none⟩
    ⟨"c1", "id", "INT", true, false, false, true, none, none⟩ rfl

/-! ## C5 — phase ordering of the issued statements -/

/-- C5: in one sync pass in which the driver raises no error, the trace
of issued statements is: FK checks off, the inventory query, all prune
drops, then all materialize statements in the document's table order,
then all relationship `ALTER TABLE`s in document order, then FK checks
on — so every prune drop precedes every materialize statement, which
precedes every relationship statement. -/
theorem sync_phase_statement_order (env : SyncEnv) (tables : List Table)
    (relationships : List Relationship) (L : List String)
    (hc : env.connect = .ok ())
    (hs : env.showTables = .ok L)
    (he : ∀ s, env.exec s = .ok ()) :
    (syncSchemaToMySQL env tables relationships).trace =
      [fkChecksOff, showTablesSQL]
        ++ (L.filter
              (fun t => !((tables.map (fun tb => sanitize tb.name)).contains t))).map
            dropTableSQL
        ++ tables.flatMap (materializeStmtsFor L)
        ++ relationshipStmts tables relationships
        ++ [fkChecksOn] := by
  obtain ⟨st2, hp⟩ := runPrune_allok env (tables.map (fun tb => sanitize tb.name)) he L
    ⟨[fkChecksOff, showTablesSQL], []⟩
  obtain ⟨hpe, hpd⟩ := runPrune_ok_eq env (tables.map (fun tb => sanitize tb.name)) L
    ⟨[fkChecksOff, showTablesSQL], []⟩ st2 hp
  rw [syncSchemaToMySQL, hc]
  simp only [execQuery, he, hs, List.nil_append, List.singleton_append]
  rw [hp]
  simp only []
  rw [runMaterialize_allok env L he tables st2]
  simp only []
  rw [runRelationships_executed env tables relationships]
  simp only [hpe]

/-- Witness: C5 on the fixture document against inventory `["zap"]`. -/
theorem sync_phase_order_witness :
    (syncSchemaToMySQL ⟨.ok (), .ok ["zap"], fun _ => .ok ()⟩
        [usersTable, postsTable] [postsUserRel]).trace =
      [fkChecksOff, showTablesSQL]
        ++ ((["zap"] : List String).filter
              (fun t =>
                !((([usersTable, postsTable] : List Table).map
                    (fun tb => sanitize tb.name)).contains t))).map dropTableSQL
        ++ ([usersTable, postsTable] : List Table).flatMap (materializeStmtsFor ["zap"])
        ++ relationshipStmts [usersTable, postsTable] [postsUserRel]
        ++ [fkChecksOn] :=
  sync_phase_statement_order ⟨.ok (), .ok ["zap"], fun _ => .ok ()⟩
    [usersTable, postsTable] [postsUserRel] ["zap"] rfl rfl (fun _ => rfl)

/-! ## C3 — asymmetric error policy between phases -/

/-- C3: a driver error on a table's `DROP`/`CREATE` during
materialization is not caught in the per-table loop — it ends the pass
with `success: false` carrying the details accumulated so far, the
remaining tables and the whole relationship phase never run — whereas a
driver error on one relationship's `ALTER TABLE` is recorded as a
`fkFailed` detail line, the remaining relationships still run, and a
pass whose other phases succeed still returns `success: true`. -/
theorem table_phase_aborts_relationship_phase_continues :
    (∀ (env : SyncEnv) (tables : List Table) (relationships : List Relationship)
       (L : List String) (e : String) (st1 stf : SyncState),
      env.connect = .ok () → env.exec fkChecksOff = .ok () →
      env.showTables = .ok L →
      runPrune env (tables.map (fun tb => sanitize tb.name)) L
        ⟨[fkChecksOff, showTablesSQL], []⟩ = .ok st1 →
      runMaterialize env L tables st1 = .error (e, stf) →
      syncSchemaToMySQL env tables relationships =
        ⟨false, syncFailedMsg e, stf.details, stf.executed⟩) ∧
    (∀ (env : SyncEnv) (existingTables : List String) (tb : Table)
       (rest : List Table) (st : SyncState) (e : String),
      existingTables.contains (sanitize tb.name) = false →
      env.exec (generateCreateTableSQL tb) = .error e →
      runMaterialize env existingTables (tb :: rest) st =
        .error (e, ⟨st.executed ++ [generateCreateTableSQL tb], st.details⟩)) ∧
    (∀ (env : SyncEnv) (tables : List Table) (rel : Relationship)
       (rest : List Relationship) (st : SyncState)
       (sourceTable targetTable : Table) (sourceColumn targetColumn : Column)
       (e : String),
      resolveRel tables rel = some (sourceTable, targetTable, sourceColumn, targetColumn) →
      env.exec (relAlterSQL rel sourceTable targetTable sourceColumn targetColumn) =
        .error e →
      runRelationships env tables (rel :: rest) st =
        runRelationships env tables rest
          ⟨st.executed ++ [relAlterSQL rel sourceTable targetTable sourceColumn targetColumn],
           st.details ++ [.fkFailed (sanitize sourceTable.name)
             (sanitize sourceColumn.name) e]⟩) ∧
    (∀ (env : SyncEnv) (tables : List Table) (relationships : List Relationship)
       (L : List String) (st1 st2 : SyncState),
      env.connect = .ok () → env.exec fkChecksOff = .ok () →
      env.showTables = .ok L →
      runPrune env (tables.map (fun tb => sanitize tb.name)) L
        ⟨[fkChecksOff, showTablesSQL], []⟩ = .ok st1 →
      runMaterialize env L tables st1 = .ok st2 →
      env.exec fkChecksOn = .ok () →
      (syncSchemaToMySQL env tables relationships).success = true) := by
  refine ⟨?_, ?_, ?_, ?_⟩
  · intro env tables relationships L e st1 stf hc hoff hs hp hm
    rw [syncSchemaToMySQL, hc]
    simp only [execQuery, hoff, hs, List.nil_append, List.singleton_append]
    rw [hp]
    simp only []
    rw [hm]
  · intro env existingTables tb rest st e hc he
    rw [runMaterialize]
    simp only [execQuery, he, hc, Bool.false_eq_true, if_false]
  · intro env tables rel rest st sourceTable targetTable sourceColumn targetColumn e hr he
    rw [runRelationships]
    simp only [hr, he]
  · intro env tables relationships L st1 st2 hc hoff hs hp hm hon
    rw [syncSchemaToMySQL, hc]
    simp only [execQuery, hoff, hs, List.nil_append, List.singleton_append]
    rw [hp]
    simp only []
    rw [hm]
    simp only []
    rw [hon]

/-- An environment that fails exactly on the `CREATE TABLE` for the
`users` fixture. -/
def envFailUsersCreate : SyncEnv :=
  ⟨.ok (), .ok [], fun s =>
    if s == generateCreateTableSQL usersTable then .error "boom" else .ok ()⟩

/-- An environment that fails exactly on the fixture relationship's
`ALTER TABLE`. -/
def envFailFK : SyncEnv :=
  ⟨.ok (), .ok [], fun s =>
    if s == relAlterSQL postsUserRel postsTable usersTable
        ⟨"c4", "user_id", "INT", false, true, false, false, none, none⟩
        ⟨"c1", "id", "INT", true, false, false, true, none, none⟩
    then .error "fkboom" else .ok ()⟩

set_option maxRecDepth 16384 in
/-- Witness: C3's four parts at concrete fixtures — the failed `CREATE`
aborts the pass with `success: false` and the accumulated details, while
the failed `ALTER TABLE` is logged and the pass stays `success: true`. -/
theorem error_policy_asymmetry_witness :
    syncSchemaToMySQL envFailUsersCreate [usersTable, postsTable] [postsUserRel] =
      ⟨false, syncFailedMsg "boom",
        (⟨[fkChecksOff, showTablesSQL, generateCreateTableSQL usersTable], []⟩ :
          SyncState).details,
        (⟨[fkChecksOff, showTablesSQL, generateCreateTableSQL usersTable], []⟩ :
          SyncState).executed⟩ ∧
    runMaterialize envFailUsersCreate [] [usersTable, postsTable]
        ⟨[fkChecksOff, showTablesSQL], []⟩ =
      .error ("boom",
        ⟨[fkChecksOff, showTablesSQL] ++ [generateCreateTableSQL usersTable], []⟩) ∧
    runRelationships envFailFK [usersTable, postsTable] [postsUserRel] ⟨[], []⟩ =
      runRelationships envFailFK [usersTable, postsTable] []
        ⟨[] ++ [relAlterSQL postsUserRel postsTable usersTable
            ⟨"c4", "user_id", "INT", false, true, false, false, none, none⟩
            ⟨"c1", "id", "INT", true, false, false, true, none, none⟩],
         [] ++ [.fkFailed (sanitize postsTable.name) (sanitize "user_id") "fkboom"]⟩ ∧
    (syncSchemaToMySQL envFailFK [usersTable, postsTable] [postsUserRel]).success = true := by
  refine ⟨?_, ?_, ?_, ?_⟩
  · exact table_phase_aborts_relationship_phase_continues.1 envFailUsersCreate
      [usersTable, postsTable] [postsUserRel] [] "boom"
      ⟨[fkChecksOff, showTablesSQL], []⟩
      ⟨[fkChecksOff, showTablesSQL, generateCreateTableSQL usersTable], []⟩
      rfl rfl rfl rfl rfl
  · exact table_phase_aborts_relationship_phase_continues.2.1 envFailUsersCreate
      [] usersTable [postsTable] ⟨[fkChecksOff, showTablesSQL], []⟩ "boom" rfl rfl
  · exact table_phase_aborts_relationship_phase_continues.2.2.1 envFailFK
      [usersTable, postsTable] postsUserRel [] ⟨[], []⟩ postsTable usersTable
      ⟨"c4", "user_id", "INT", false, true, false, false, none, none⟩
      ⟨"c1", "id", "INT", true, false, false, true, none, none⟩ "fkboom" rfl rfl
  · exact table_phase_aborts_relationship_phase_continues.2.2.2 envFailFK
      [usersTable, postsTable] [postsUserRel] []
      ⟨[fkChecksOff, showTablesSQL], []⟩
      ⟨[fkChecksOff, showTablesSQL]
          ++ [generateCreateTableSQL usersTable, generateCreateTableSQL postsTable],
        [.createdTable "users" 2, .createdTable "posts" 2]⟩
      rfl rfl rfl rfl rfl rfl

/-! ## C9 — database-creation policy -/

/-- C9: `createMySQLDatabase` sanitizes the name and consults the
information schema: when a database with the sanitized name exists it
returns `success: false` with an "already exists" message and never
issues `CREATE DATABASE`; when absent it issues `CREATE DATABASE` for
the sanitized name and returns `success: true`; every driver error
(connection, probe, or create) is returned as `success: false` with the
error message, never thrown. -/
theorem create_database_existence_policy (env : CreateDbEnv) (name : String) :
    (env.connect = .ok () →
      (∀ e, env.schemaExists (sanitize name) = .error e →
        createMySQLDatabase env name = ⟨false, e, []⟩) ∧
      (env.schemaExists (sanitize name) = .ok true →
        createMySQLDatabase env name =
          ⟨false, "Database '" ++ sanitize name ++ "' already exists", []⟩) ∧
      (env.schemaExists (sanitize name) = .ok false →
        (∀ e, env.exec (createDatabaseSQL (sanitize name)) = .error e →
          createMySQLDatabase env name =
            ⟨false, e, [createDatabaseSQL (sanitize name)]⟩) ∧
        (env.exec (createDatabaseSQL (sanitize name)) = .ok () →
          createMySQLDatabase env name =
            ⟨true, "Database '" ++ sanitize name ++ "' created successfully",
              [createDatabaseSQL (sanitize name)]⟩))) ∧
    (∀ e, env.connect = .error e → createMySQLDatabase env name = ⟨false, e, []⟩) := by
  constructor
  · intro hc
    refine ⟨?_, ?_, ?_⟩
    · intro e hs
      rw [createMySQLDatabase, hc]
      simp only [hs]
    · intro hs
      rw [createMySQLDatabase, hc]
      simp only [hs]
    · intro hs
      constructor
      · intro e hx
        rw [createMySQLDatabase, hc]
        simp only [hs, hx]
      · intro hx
        rw [createMySQLDatabase, hc]
        simp only [hs, hx]
  · intro e hc
    rw [createMySQLDatabase, hc]

/-- An environment in which the probed database already exists. -/
def dbEnvExists : CreateDbEnv := ⟨.ok (), fun _ => .ok true, fun _ => .ok ()⟩

/-- An environment in which the probed database is absent. -/
def dbEnvAbsent : CreateDbEnv := ⟨.ok (), fun _ => .ok false, fun _ => .ok ()⟩

/-- Witness: C9 at the name `"My DB"` (sanitized to `My_DB`): refusal
with no `CREATE DATABASE` when present, creation when absent. -/
theorem create_database_policy_witness :
    createMySQLDatabase dbEnvExists "My DB" =
      ⟨false, "Database '" ++ sanitize "My DB" ++ "' already exists", []⟩ ∧
    createMySQLDatabase dbEnvAbsent "My DB" =
      ⟨true, "Database '" ++ sanitize "My DB" ++ "' created successfully",
        [createDatabaseSQL (sanitize "My DB")]⟩ :=
  ⟨((create_database_existence_policy dbEnvExists "My DB").1 rfl).2.1 rfl,
   (((create_database_existence_policy dbEnvAbsent "My DB").1 rfl).2.2 rfl).2 rfl⟩

end MySqlService
